import Mathlib

/-!
# Verification of the Advanced Accordion frontend view script

Shallow embedding of `src/view.js` (the runtime hydration / animation
engine of the `advanced-accordion` block) and proofs about it.

Modelling conventions:
* JavaScript numbers are modelled by `JNum`: either `nan` or an exact
  rational.  The script only ever parses decimal literals, compares with
  `> 0`, and computes `duration * 1000 + 100`; no float rounding is
  relevant at those points.
* DOM attributes of an element are an association list
  `List (String × String)`; `getAttribute` returning `null` is `none`.
* Inline CSS declarations are structured values (see `MaxHeight`,
  `TransitionStyle`, `Transform`); the empty string `""` (a removed
  inline declaration) is the `unset` constructor / `""` as appropriate.
* The callback structure of the script (requestAnimationFrame,
  transitionend listeners, setTimeout) is made explicit: each operation
  is split into its synchronous phase plus named step functions for each
  registered callback, and the synchronous phase additionally reports
  which callbacks it registered.
* Console logging in `view.js` is pure diagnostics and is not modelled.
* Items are modelled with their toggle button and content panel present
  (the `if (!toggle || !content) return` guards concern malformed
  markup, which no claim below exercises).
-/

namespace AdvAccordion

/-! ## JavaScript numbers (exact fragment)

The script's arithmetic on numbers is limited to parsing decimal
literals, `> 0` comparisons and `duration * 1000 + 100`, all exact, so
a JavaScript number is modelled as `NaN` or an exact rational.  The
rationals are kept in a canonical reduced form (`JQ`, reduced through
a fuel-based structural gcd) so that structural equality is value
equality and every concrete computation reduces in the kernel. -/

/-- Fuel-based Euclidean gcd (structural recursion on the fuel, which
is always supplied large enough). -/
def gcdF : ℕ → ℕ → ℕ → ℕ
  | 0, _, b => b
  | _ + 1, 0, b => b
  | f + 1, a + 1, b => gcdF f (b % (a + 1)) (a + 1)

/-- A rational in canonical form: reduced, positive denominator.
Canonicity is maintained by the smart constructor `mkJQ`. -/
structure JQ where
  num : ℤ
  den : ℕ
  deriving DecidableEq, Repr

instance (n : ℕ) : OfNat JQ n := ⟨⟨n, 1⟩⟩

/-- Build the canonical rational `n / d` (for `d ≠ 0`). -/
def mkJQ (n : ℤ) (d : ℕ) : JQ :=
  if d = 0 then ⟨0, 1⟩
  else
    let g := gcdF (n.natAbs + d) n.natAbs d
    ⟨Int.ediv n g, d / g⟩

namespace JQ

/-- `0 < q` for a canonical rational. -/
def pos (q : JQ) : Bool := decide (0 < q.num)

/-- Exact multiplication. -/
def mulQ (a b : JQ) : JQ := mkJQ (a.num * b.num) (a.den * b.den)

/-- Exact addition. -/
def addQ (a b : JQ) : JQ := mkJQ (a.num * b.den + b.num * a.den) (a.den * b.den)

/-- Negation (preserves canonicity). -/
def negQ (a : JQ) : JQ := ⟨-a.num, a.den⟩

end JQ

/-- A JavaScript number as the script uses it: `NaN` or an exact value. -/
inductive JNum where
  | nan : JNum
  | num : JQ → JNum
  deriving DecidableEq, Repr

namespace JNum

/-- JavaScript `x > 0` (false for `NaN`). -/
def gt0 : JNum → Bool
  | nan => false
  | num q => q.pos

/-- JavaScript multiplication (NaN-propagating). -/
def mul : JNum → JNum → JNum
  | nan, _ => nan
  | _, nan => nan
  | num a, num b => num (a.mulQ b)

/-- JavaScript addition (NaN-propagating). -/
def add : JNum → JNum → JNum
  | nan, _ => nan
  | _, nan => nan
  | num a, num b => num (a.addQ b)

/-- JavaScript unary minus (NaN-propagating). -/
def negJ : JNum → JNum
  | nan => nan
  | num a => num a.negQ

end JNum

/-! ## `parseFloat`

JavaScript's `parseFloat`: skip leading whitespace, then read the
longest prefix of the form `[+-]? (digits [. digits*] | . digits+)`;
if no digit is consumed the result is `NaN`.  (Exponent suffixes are
not modelled; no attribute value in scope carries one.) -/

/-- Numeric value of a digit string read left to right. -/
def digitsVal (ds : List Char) : ℕ :=
  ds.foldl (fun a c => a * 10 + (c.toNat - 48)) 0

/-- Parse an unsigned decimal: integer part, optional fraction. -/
def parseUnsigned (cs : List Char) : JNum :=
  let ip := cs.takeWhile Char.isDigit
  let rest := cs.dropWhile Char.isDigit
  match rest with
  | '.' :: rest2 =>
      let fp := rest2.takeWhile Char.isDigit
      if ip.isEmpty && fp.isEmpty then JNum.nan
      else JNum.num (mkJQ (digitsVal ip * 10 ^ fp.length + digitsVal fp) (10 ^ fp.length))
  | _ =>
      if ip.isEmpty then JNum.nan else JNum.num ⟨digitsVal ip, 1⟩

/-- Whitespace skipped by `parseFloat`. -/
def isJsSpace (c : Char) : Bool :=
  c = ' ' || c = '\t' || c = '\n' || c = '\r'

/-- JavaScript `parseFloat` on the modelled fragment. -/
def parseFloat (s : String) : JNum :=
  match s.data.dropWhile isJsSpace with
  | '+' :: t => parseUnsigned t
  | '-' :: t => (parseUnsigned t).negJ
  | t => parseUnsigned t

/-! ## Attribute access and the three data readers (`view.js` 28–47) -/

/-- An element's attribute map; `getAttr` is `el.getAttribute(name)`. -/
abbrev Attrs := List (String × String)

/-- `el.getAttribute(name)`: `none` models JavaScript `null`. -/
def getAttr (attrs : Attrs) (name : String) : Option String :=
  (attrs.find? (fun p => p.1 = name)).map (fun p => p.2)

/-- `el.hasAttribute(name)`. -/
def hasAttr (attrs : Attrs) (name : String) : Bool :=
  (getAttr attrs name).isSome

/-- `dataNum(el, attr, fallback)`:
`raw !== null && raw !== undefined ? parseFloat(raw) : fallback`. -/
def dataNum (attrs : Attrs) (attr : String) (fallback : JNum) : JNum :=
  match getAttr attrs ("data-" ++ attr) with
  | some raw => parseFloat raw
  | none => fallback

/-- `dataStr(el, attr, fallback = '')`. -/
def dataStr (attrs : Attrs) (attr : String) (fallback : String := "") : String :=
  match getAttr attrs ("data-" ++ attr) with
  | some raw => raw
  | none => fallback

/-- `dataBool(el, attr, fallback = false)`: absent → fallback,
present → `raw === 'true'`. -/
def dataBool (attrs : Attrs) (attr : String) (fallback : Bool := false) : Bool :=
  match getAttr attrs ("data-" ++ attr) with
  | some raw => raw = "true"
  | none => fallback

/-! ## Animation settings (`view.js` 65–72 and 146–171) -/

/-- The resolved `AnimationProfile` of an item. -/
structure Settings where
  duration : JNum
  easing : String
  contentFade : Bool
  fadeDuration : JNum
  slideDistance : JNum
  stagger : JNum
  deriving DecidableEq, Repr

/-- Container-level defaults built in the constructor (`view.js` 65–72). -/
def containerDefaults (cattrs : Attrs) : Settings :=
  { duration := dataNum cattrs "duration" (JNum.num (mkJQ 2 5))
    easing := dataStr cattrs "easing" "ease"
    contentFade := dataBool cattrs "content-fade" true
    fadeDuration := dataNum cattrs "fade-duration" (JNum.num (mkJQ 3 10))
    slideDistance := dataNum cattrs "slide-distance" (JNum.num 10)
    stagger := dataNum cattrs "stagger" (JNum.num 0) }

/-- `_getSettings(item)` (`view.js` 146–171): copy the container
defaults, overwrite each field iff the item has the attribute, then
force `duration`/`fadeDuration`/`stagger` to 0 under reduced motion. -/
def getSettings (reduced : Bool) (defaults : Settings) (iattrs : Attrs) : Settings :=
  let s := defaults
  let s := if hasAttr iattrs "data-duration" then
      { s with duration := dataNum iattrs "duration" s.duration } else s
  let s := if hasAttr iattrs "data-easing" then
      { s with easing := dataStr iattrs "easing" s.easing } else s
  let s := if hasAttr iattrs "data-content-fade" then
      { s with contentFade := dataBool iattrs "content-fade" s.contentFade } else s
  let s := if hasAttr iattrs "data-fade-duration" then
      { s with fadeDuration := dataNum iattrs "fade-duration" s.fadeDuration } else s
  let s := if hasAttr iattrs "data-slide-distance" then
      { s with slideDistance := dataNum iattrs "slide-distance" s.slideDistance } else s
  let s := if hasAttr iattrs "data-stagger" then
      { s with stagger := dataNum iattrs "stagger" s.stagger } else s
  if reduced then
    { s with duration := JNum.num 0, fadeDuration := JNum.num 0, stagger := JNum.num 0 }
  else s

/-! ## Inline style model -/

/-- Structured inline `transition` declaration. -/
inductive TransitionStyle where
  /-- no inline declaration (`''`) -/
  | unset
  /-- `'none'` -/
  | disabled
  /-- `` `max-height ${dur}s ${easing}` `` -/
  | maxHeightT (dur : JNum) (easing : String)
  /-- `` `opacity ${fd}s ${e} ${delay}ms, transform ${fd}s ${e} ${delay}ms` `` -/
  | fadeInT (fadeDur : JNum) (easing : String) (delayMs : JNum)
  /-- `` `opacity ${fd}s ${e}, transform ${fd}s ${e}` `` -/
  | fadeOutT (fadeDur : JNum) (easing : String)
  deriving DecidableEq, Repr

/-- Structured inline `transform` declaration. -/
inductive Transform where
  | unset
  /-- `` `translateY(${d}px)` `` -/
  | translateY (px : JNum)
  /-- `` `translateY(-${d}px)` `` -/
  | translateYNeg (px : JNum)
  /-- `'translateY(0)'` -/
  | translateYZero
  deriving DecidableEq, Repr

/-- Structured inline `max-height` declaration, with `!important`
priority where the script uses `setProperty(..., 'important')`.
A plain `style.maxHeight = v` assignment replaces value and priority. -/
inductive MaxHeight where
  /-- no inline declaration (`''`) -/
  | unset
  /-- `'none'` -/
  | noneV
  /-- `'0'` -/
  | zeroStr
  /-- `'0px'` -/
  | zeroPx
  /-- `` `${n}px` `` -/
  | px (n : ℕ)
  /-- `setProperty(`${n}px`, 'important')` -/
  | pxImp (n : ℕ)
  /-- `setProperty('0px', 'important')` -/
  | zeroPxImp
  deriving DecidableEq, Repr

/-- Inline styles of one animatable element (a direct child of the
content panel, or an `li` inside a nested list). -/
structure Elem where
  transition : TransitionStyle := .unset
  opacity : String := ""
  transform : Transform := .unset
  deriving DecidableEq, Repr

/-- A direct child of the content panel.  If it contains `ul`/`ol`
lists, `_getAnimatableElements` animates the lists' `li` children
(collected in `listItems`) instead of the child itself. -/
structure Child where
  self : Elem := {}
  listItems : List Elem := []
  deriving DecidableEq, Repr

/-- Map a function over a list, passing the element index offset by `k`. -/
def mapIdxFrom (f : ℕ → α → α) : ℕ → List α → List α
  | _, [] => []
  | k, a :: as => f k a :: mapIdxFrom f (k + 1) as

/-- `_getAnimatableElements` + `forEach` (`view.js` 456–479): apply `f`
to each animatable element, threading the index of the element in the
flattened animatable list (the stagger index). -/
def mapAnimatableFrom (f : ℕ → Elem → Elem) : ℕ → List Child → List Child
  | _, [] => []
  | k, ch :: rest =>
    if ch.listItems.isEmpty then
      { ch with self := f k ch.self } :: mapAnimatableFrom f (k + 1) rest
    else
      { ch with listItems := mapIdxFrom f k ch.listItems } ::
        mapAnimatableFrom f (k + ch.listItems.length) rest

/-- Apply `f` to every animatable element of the content panel. -/
def mapAnimatable (f : ℕ → Elem → Elem) (cs : List Child) : List Child :=
  mapAnimatableFrom f 0 cs

/-- The content panel (`.wp-block-accordion-content`) of an item.
`naturalHeight` is the panel's full content height: its `scrollHeight`,
and also its `offsetHeight` while `max-height` is `none`. -/
structure Content where
  hidden : Bool := true
  maxHeight : MaxHeight := .unset
  transition : TransitionStyle := .unset
  overflow : String := ""
  opacity : String := ""
  /-- `content.dataset.isClosing` -/
  isClosing : Option String := none
  /-- class `aa-no-fade` present -/
  noFade : Bool := false
  children : List Child := []
  naturalHeight : ℕ := 0
  deriving DecidableEq, Repr

/-- One accordion item, with its toggle button's `aria-expanded` and
the item-level `--aa-duration` / `--aa-easing` custom properties. -/
structure Item where
  attrs : Attrs := []
  /-- class `is-open` on the item -/
  isOpenClass : Bool := false
  ariaExpanded : String := ""
  aaDuration : Option JNum := none
  aaEasing : Option String := none
  content : Content := {}
  deriving DecidableEq, Repr

/-- `_initItem`, closed branch (`view.js` 131–134). -/
def initClosed (it : Item) : Item :=
  { it with
      ariaExpanded := "false"
      content := { it.content with
        hidden := true
        maxHeight := .zeroStr
        overflow := "hidden" } }

/-! ## Open operation (`_openItem`, `view.js` 207–273)

Split into the synchronous phase `openItemSync`, the animation-frame
callback `openRAF` (registered unconditionally at line 250) and the
`transitionend` handler `openOnEnd` (lines 262–266, registered only
when `dur > 0`).  The synchronous phase reports which callbacks were
registered; `_openItem` contains no `setTimeout`, so
`timeoutRegistered` is always `false`. -/

/-- Environment captured by the callbacks `_openItem` registers. -/
structure OpenSched where
  rafRegistered : Bool := false
  transEndRegistered : Bool := false
  timeoutRegistered : Bool := false
  s : Settings
  dur : JNum
  instant : Bool
  targetHeight : ℕ
  deriving DecidableEq, Repr

/-- Synchronous phase of `_openItem(item, instant)`. -/
def openItemSync (reduced : Bool) (defaults : Settings) (instant : Bool)
    (it : Item) : Item × OpenSched :=
  let s := getSettings reduced defaults it.attrs
  let dur := if instant then JNum.num 0 else s.duration
  -- lines 215–217: mark open, aria-expanded, unhide
  let it := { it with
      isOpenClass := true
      ariaExpanded := "true"
      content := { it.content with hidden := false } }
  -- lines 220–224: toggle the aa-no-fade class
  let it := { it with content := { it.content with noFade := !s.contentFade } }
  -- lines 227–228: CSS custom properties
  let it := { it with aaDuration := some dur, aaEasing := some s.easing }
  -- lines 231–237: pre-position children for the fade-in
  let it := if s.contentFade && !instant then
      let cs := mapAnimatable (fun _ e =>
        { e with opacity := "0", transform := .translateY s.slideDistance })
        it.content.children
      { it with content := { it.content with children := cs } }
    else it
  -- lines 240–243: unconstrain and measure the natural height
  let it := { it with content := { it.content with
      transition := .disabled
      maxHeight := .noneV
      overflow := "hidden" } }
  let targetHeight := it.content.naturalHeight
  -- lines 246–248: reset to zero, force reflow
  let it := { it with content := { it.content with maxHeight := .zeroStr } }
  -- lines 268–272: transitionend handler iff dur > 0, else release now;
  -- line 250: requestAnimationFrame is called unconditionally
  let it := if dur.gt0 then it
    else { it with content := { it.content with maxHeight := .noneV } }
  (it, { rafRegistered := true
         transEndRegistered := dur.gt0
         timeoutRegistered := false
         s := s
         dur := dur
         instant := instant
         targetHeight := targetHeight })

/-- The animation-frame callback of `_openItem` (`view.js` 250–259). -/
def openRAF (sch : OpenSched) (it : Item) : Item :=
  let it := { it with content := { it.content with
      transition := .maxHeightT sch.dur sch.s.easing
      maxHeight := .px sch.targetHeight } }
  if sch.s.contentFade && !sch.instant then
    let cs := mapAnimatable (fun i e =>
      { e with
          transition := .fadeInT sch.s.fadeDuration sch.s.easing
            (sch.s.stagger.mul (JNum.num ⟨i, 1⟩))
          opacity := "1"
          transform := .translateYZero })
      it.content.children
    { it with content := { it.content with children := cs } }
  else it

/-- The `transitionend` handler `onEnd` of `_openItem` (`view.js`
262–266): release the height constraint, but only for a `max-height`
transition (note: the handler does not check `e.target`). -/
def openOnEnd (propertyName : String) (it : Item) : Item :=
  if propertyName ≠ "max-height" then it
  else { it with content := { it.content with maxHeight := .noneV } }

/-! ## Close operation (`_closeItem`, `view.js` 277–427)

Split into the synchronous phase `closeItemSync` (guard, height lock,
callback registration; returns `none` for the guarded no-op), the
animation-frame callback `closeRAF`, the `transitionend` handler
`closeTransEnd` and the fallback-timeout body `closeFallback` (both of
which run the shared `cleanupClose`).  The `debugHandler` listener and
all `console.log` calls are pure diagnostics and not modelled. -/

/-- Environment captured by the callbacks `_closeItem` registers. -/
structure CloseSched where
  rafRegistered : Bool := false
  transEndRegistered : Bool := false
  timeoutRegistered : Bool := false
  /-- delay of the fallback `setTimeout`, when registered -/
  timeoutDelayMs : Option JNum := none
  s : Settings
  currentHeight : ℕ
  deriving DecidableEq, Repr

/-- The shared `cleanup` closure of `_closeItem` (`view.js` 326–353). -/
def cleanupClose (s : Settings) (it : Item) : Item :=
  let it := { it with
    isOpenClass := false
    ariaExpanded := "false"
    content := { it.content with
      hidden := true
      maxHeight := .unset
      transition := .unset
      overflow := ""
      opacity := "" } }
  let it := if s.contentFade then
      let cs := mapAnimatable (fun _ e =>
        { e with transition := .unset, opacity := "", transform := .unset })
        it.content.children
      { it with content := { it.content with children := cs } }
    else it
  { it with content := { it.content with isClosing := some "false" } }

/-- Synchronous phase of `_closeItem(item)`. -/
def closeItemSync (reduced : Bool) (defaults : Settings) (it : Item) :
    Item × Option CloseSched :=
  -- lines 282–284: double-close guard
  if it.content.isClosing = some "true" then (it, none)
  else
    let it := { it with content := { it.content with isClosing := some "true" } }
    let s := getSettings reduced defaults it.attrs
    -- lines 296–297: CSS custom properties
    let it := { it with aaDuration := some s.duration, aaEasing := some s.easing }
    -- lines 300–306: toggle the aa-no-fade class
    let it := { it with content := { it.content with noFade := !s.contentFade } }
    -- line 309: snapshot scrollHeight
    let currentHeight := it.content.naturalHeight
    -- lines 313–323: lock the height with priority 'important', flush
    let it := { it with content := { it.content with
        transition := .disabled
        overflow := "hidden"
        maxHeight := .pxImp currentHeight } }
    if s.duration.gt0 then
      -- lines 369–387: transitionend handler + fallback timeout;
      -- line 389: requestAnimationFrame
      (it, some { rafRegistered := true
                  transEndRegistered := true
                  timeoutRegistered := true
                  timeoutDelayMs :=
                    some ((s.duration.mul (JNum.num 1000)).add (JNum.num 100))
                  s := s
                  currentHeight := currentHeight })
    else
      -- lines 422–426: instant close
      let it := { it with content := { it.content with maxHeight := .zeroPx } }
      (cleanupClose s it,
       some { s := s, currentHeight := currentHeight })

/-- The animation-frame callback of `_closeItem` (`view.js` 389–421). -/
def closeRAF (s : Settings) (it : Item) : Item :=
  let it := { it with content := { it.content with
      transition := .maxHeightT s.duration s.easing
      maxHeight := .zeroPxImp } }
  if s.contentFade then
    let cs := mapAnimatable (fun _ e =>
      { e with
          transition := .fadeOutT s.fadeDuration s.easing
          opacity := "0"
          transform := .translateYNeg s.slideDistance })
      it.content.children
    { it with content := { it.content with children := cs } }
  else it

/-- The `transitionend` handler of `_closeItem` (`view.js` 369–377):
cleanup only for a `max-height` transition on the content element. -/
def closeTransEnd (targetIsContent : Bool) (propertyName : String)
    (s : Settings) (it : Item) : Item :=
  if targetIsContent && propertyName = "max-height" then cleanupClose s it else it

/-- The fallback-timeout body of `_closeItem` (`view.js` 382–387). -/
def closeFallback (s : Settings) (it : Item) : Item :=
  cleanupClose s it

/-! ## Completed open / close runs

The browser environment for an uninterrupted animation: fire the
pending animation frame, then deliver the `max-height` transitionend
on the content element (for a zero duration no transition runs and no
handler was registered). -/

/-- `_openItem` with its animation left to complete. -/
def runOpen (reduced : Bool) (defaults : Settings) (it : Item) : Item :=
  match openItemSync reduced defaults false it with
  | (it1, sch) =>
    let it2 := openRAF sch it1
    if sch.transEndRegistered then openOnEnd "max-height" it2 else it2

/-- `_closeItem` with its animation left to complete. -/
def runClose (reduced : Bool) (defaults : Settings) (it : Item) : Item :=
  match closeItemSync reduced defaults it with
  | (it1, none) => it1
  | (it1, some sch) =>
    if sch.transEndRegistered then
      closeTransEnd true "max-height" sch.s (closeRAF sch.s it1)
    else it1

/-! ## Resize recalculation (`_recalcOpenHeights`, `view.js` 561–571) -/

/-- Body of the `forEach` in `_recalcOpenHeights`. -/
def recalcItem (it : Item) : Item :=
  if !it.isOpenClass then it
  else if it.content.isClosing = some "true" then it
  else if it.content.maxHeight ≠ .noneV then
    { it with content := { it.content with maxHeight := .px it.content.naturalHeight } }
  else it

/-- `_recalcOpenHeights()`. -/
def recalcOpenHeights (items : List Item) : List Item :=
  items.map recalcItem

/-! ## Document level: `_toggle`, linked groups, auto-close

A document is a list of hydrated containers; items are addressed by
(container index, item index).  `_openItemGlobal` / `_closeItemGlobal`
resolve the owning instance through the registry and call that
instance's `_openItem` / `_closeItem`; in normal operation (every
container hydrated and registered, the situation all claims below
address) this means the linked item's own container supplies the
defaults, which is how `syncLinkedGroup` is modelled.  Only the
synchronous phase of each open/close runs inside the toggling turn, so
the document-level functions use `openItemSync` / `closeItemSync`. -/

/-- One hydrated `.wp-block-advanced-accordion` container. -/
structure Container where
  attrs : Attrs := []
  items : List Item := []
  deriving DecidableEq, Repr

/-- The page: all hydrated containers in document order. -/
abbrev Doc := List Container

/-- The item at (container `ci`, position `ii`), if any. -/
def docItem? (doc : Doc) (ci ii : ℕ) : Option Item :=
  (doc.get? ci).bind (fun c => c.items.get? ii)

/-! ## Concrete fixtures for witnesses and counterexamples -/

/-- A content panel with two direct children, the second holding a
two-item list (exercising `_getAnimatableElements`). -/
def sampleChildren : List Child :=
  [{ self := {} }, { self := {}, listItems := [{}, {}] }]

/-- A pristine just-initialised closed item with the given attributes. -/
def sampleItem (iattrs : Attrs) : Item :=
  initClosed { attrs := iattrs, content := { children := sampleChildren, naturalHeight := 120 } }

/-- Attributes of a demo container with auto-close and instant
animations. -/
def demoContainerAttrs : Attrs := [("data-auto-close", "true"), ("data-duration", "0")]

/-- Demo item A: open, not in any link group. -/
def demoA : Item := { sampleItem [] with isOpenClass := true }

/-- Demo item B: open, in link group `g`. -/
def demoB : Item := { sampleItem [("data-link-group", "g")] with isOpenClass := true }

/-- Demo item C: closed, in link group `g`. -/
def demoC : Item := sampleItem [("data-link-group", "g")]

/-- A demo page: one auto-close container holding A, B, C. -/
def demoDoc : Doc := [⟨demoContainerAttrs, [demoA, demoB, demoC]⟩]

/-- A demo page with two containers: the toggled item (group `g`) in
the first, an open item of a different group `h` in the second. -/
def demoDoc2 : Doc :=
  [⟨[], [sampleItem [("data-link-group", "g")]]⟩,
   ⟨[], [{ sampleItem [("data-link-group", "h")] with isOpenClass := true }]⟩]

/-- A JavaScript-truthy attribute value: present and non-empty
(`if (groupId)` and `if (siblingGroup && ...)` in the source). -/
def truthyAttr (attrs : Attrs) (name : String) : Option String :=
  match getAttr attrs name with
  | some s => if s = "" then none else some s
  | none => none

/-- Per-item action of the open-or-close step of `_toggle` (`view.js`
178–182): replace exactly the item at the trigger position, closing it
if it had the `is-open` class, else opening it, with the toggling
container's defaults. -/
def toggleItemFn (r : Bool) (df : Settings) (io : Bool) (tci tii ci ii : ℕ)
    (it : Item) : Item :=
  if ci = tci ∧ ii = tii then
    (if io then (closeItemSync r df it).1 else (openItemSync r df false it).1)
  else it

/-- The open-or-close step of `_toggle` over the document. -/
def toggleOpenCloseAt (r : Bool) (df : Settings) (io : Bool)
    (doc : Doc) (tci tii : ℕ) : Doc :=
  mapIdxFrom (fun ci c =>
    { c with items := mapIdxFrom (toggleItemFn r df io tci tii ci) 0 c.items }) 0 doc

/-- Per-item action of `_syncLinkedGroup(groupId, triggerItem,
shouldOpen)` (`view.js` 483–498): an item whose raw `data-link-group`
equals `gid`, excluding the trigger, is driven towards `so` through
its own container's instance (registry resolution in normal
operation), hence with defaults from its container's attributes
`cattrs`. -/
def syncItemFn (r : Bool) (gid : String) (tci tii : ℕ) (so : Bool)
    (cattrs : Attrs) (ci ii : ℕ) (it : Item) : Item :=
  if ci = tci ∧ ii = tii then it
  else if getAttr it.attrs "data-link-group" = some gid then
    if so && !it.isOpenClass then
      (openItemSync r (containerDefaults cattrs) false it).1
    else if !so && it.isOpenClass then
      (closeItemSync r (containerDefaults cattrs) it).1
    else it
  else it

/-- `_syncLinkedGroup` over the document.  Each item's update depends
only on that item and its own container, so the `forEach` is an
indexed map. -/
def syncLinkedGroup (r : Bool) (doc : Doc) (gid : String)
    (tci tii : ℕ) (so : Bool) : Doc :=
  mapIdxFrom (fun ci c =>
    { c with items := mapIdxFrom (syncItemFn r gid tci tii so c.attrs ci) 0 c.items })
    0 doc

/-- Per-item action of the auto-close `forEach` of `_toggle` (`view.js`
192–202): inside the toggled container only, close every other open
sibling, except one whose truthy `data-link-group` equals the toggled
item's raw group value `graw`.  (`this._closeItem` runs on the toggled
container's instance, whose defaults are that container's
`containerDefaults`.) -/
def autoCloseItemFn (r : Bool) (tci tii : ℕ) (graw : Option String)
    (cattrs : Attrs) (ci ii : ℕ) (it : Item) : Item :=
  if ci = tci then
    if ii = tii then it
    else if it.isOpenClass then
      match truthyAttr it.attrs "data-link-group" with
      | some sg =>
          if graw = some sg then it
          else (closeItemSync r (containerDefaults cattrs) it).1
      | none => (closeItemSync r (containerDefaults cattrs) it).1
    else it
  else it

/-- The auto-close step of `_toggle` over the document. -/
def autoCloseSiblings (r : Bool) (doc : Doc) (tci tii : ℕ)
    (graw : Option String) : Doc :=
  mapIdxFrom (fun ci c =>
    { c with items := mapIdxFrom (autoCloseItemFn r tci tii graw c.attrs ci) 0 c.items })
    0 doc

/-- `_toggle(item)` (`view.js` 175–203) for the item at (`ci`, `ii`):
open or close it by its current `is-open` class, then synchronise its
linked group (if its `data-link-group` is truthy), then auto-close
siblings when the container has `data-auto-close="true"` and the item
was just opened. -/
def toggleAt (reduced : Bool) (doc : Doc) (ci ii : ℕ) : Doc :=
  match doc.get? ci with
  | none => doc
  | some c =>
    match c.items.get? ii with
    | none => doc
    | some item =>
      let isOpen := item.isOpenClass
      let defaults := containerDefaults c.attrs
      let doc1 := toggleOpenCloseAt reduced defaults isOpen doc ci ii
      let doc2 := match truthyAttr item.attrs "data-link-group" with
        | some gid => syncLinkedGroup reduced doc1 gid ci ii (!isOpen)
        | none => doc1
      if !isOpen && dataBool c.attrs "auto-close" false then
        autoCloseSiblings reduced doc2 ci ii (getAttr item.attrs "data-link-group")
      else doc2

/-! # Theorems -/

/-! ## Helper lemmas -/

theorem get?_mapIdxFrom (f : ℕ → α → α) (k i : ℕ) (l : List α) :
    (mapIdxFrom f k l).get? i = (l.get? i).map (f (k + i)) := by
  induction l generalizing k i with
  | nil => simp [mapIdxFrom]
  | cons a as ih =>
      cases i with
      | zero => simp [mapIdxFrom]
      | succ n =>
          have hk : k + 1 + n = k + (n + 1) := by omega
          simp only [mapIdxFrom, List.get?, ih, hk]

theorem getSettings_duration (r : Bool) (d : Settings) (a : Attrs) :
    (getSettings r d a).duration =
      if r then JNum.num 0
      else if hasAttr a "data-duration" then dataNum a "duration" d.duration
      else d.duration := by
  simp only [getSettings, apply_ite Settings.duration, ite_self]

theorem getSettings_easing (r : Bool) (d : Settings) (a : Attrs) :
    (getSettings r d a).easing =
      if hasAttr a "data-easing" then dataStr a "easing" d.easing
      else d.easing := by
  simp only [getSettings, apply_ite Settings.easing, ite_self]

theorem getSettings_contentFade (r : Bool) (d : Settings) (a : Attrs) :
    (getSettings r d a).contentFade =
      if hasAttr a "data-content-fade" then dataBool a "content-fade" d.contentFade
      else d.contentFade := by
  simp only [getSettings, apply_ite Settings.contentFade, ite_self]

theorem getSettings_fadeDuration (r : Bool) (d : Settings) (a : Attrs) :
    (getSettings r d a).fadeDuration =
      if r then JNum.num 0
      else if hasAttr a "data-fade-duration" then
        dataNum a "fade-duration" d.fadeDuration
      else d.fadeDuration := by
  simp only [getSettings, apply_ite Settings.fadeDuration, ite_self]

theorem getSettings_slideDistance (r : Bool) (d : Settings) (a : Attrs) :
    (getSettings r d a).slideDistance =
      if hasAttr a "data-slide-distance" then
        dataNum a "slide-distance" d.slideDistance
      else d.slideDistance := by
  simp only [getSettings, apply_ite Settings.slideDistance, ite_self]

theorem getSettings_stagger (r : Bool) (d : Settings) (a : Attrs) :
    (getSettings r d a).stagger =
      if r then JNum.num 0
      else if hasAttr a "data-stagger" then dataNum a "stagger" d.stagger
      else d.stagger := by
  simp only [getSettings, apply_ite Settings.stagger, ite_self]

theorem openItemSync_snd (reduced : Bool) (defaults : Settings) (instant : Bool)
    (it : Item) :
    (openItemSync reduced defaults instant it).2 =
      { rafRegistered := true
        transEndRegistered :=
          (if instant then JNum.num 0
           else (getSettings reduced defaults it.attrs).duration).gt0
        timeoutRegistered := false
        s := getSettings reduced defaults it.attrs
        dur := if instant then JNum.num 0
               else (getSettings reduced defaults it.attrs).duration
        instant := instant
        targetHeight := it.content.naturalHeight } := by
  simp only [openItemSync, apply_ite Item.content, apply_ite Content.naturalHeight,
    ite_self]

theorem openItemSync_fst (r : Bool) (d : Settings) (i : Bool) (it : Item) :
    (openItemSync r d i it).1 =
      { it with
          isOpenClass := true
          ariaExpanded := "true"
          aaDuration := some (if i then JNum.num 0 else (getSettings r d it.attrs).duration)
          aaEasing := some (getSettings r d it.attrs).easing
          content := { it.content with
            hidden := false
            noFade := !(getSettings r d it.attrs).contentFade
            transition := .disabled
            overflow := "hidden"
            maxHeight :=
              if (if i then JNum.num 0 else (getSettings r d it.attrs).duration).gt0
              then .zeroStr else .noneV
            children :=
              if (getSettings r d it.attrs).contentFade && !i then
                mapAnimatable (fun _ e =>
                  { e with opacity := "0",
                           transform := .translateY (getSettings r d it.attrs).slideDistance })
                  it.content.children
              else it.content.children } } := by
  simp only [openItemSync]
  split_ifs <;> rfl

theorem cleanupClose_eq (s : Settings) (it : Item) :
    cleanupClose s it =
      { it with
          isOpenClass := false
          ariaExpanded := "false"
          content := { it.content with
            hidden := true
            maxHeight := .unset
            transition := .unset
            overflow := ""
            opacity := ""
            isClosing := some "false"
            children :=
              if s.contentFade then
                mapAnimatable (fun _ e =>
                  { e with transition := .unset, opacity := "", transform := .unset })
                  it.content.children
              else it.content.children } } := by
  simp only [cleanupClose]
  split_ifs <;> rfl

theorem closeItemSync_of_not_closing (r : Bool) (d : Settings) (it : Item)
    (h : it.content.isClosing ≠ some "true") :
    closeItemSync r d it =
      (if (getSettings r d it.attrs).duration.gt0 then
        ({ it with
            aaDuration := some (getSettings r d it.attrs).duration
            aaEasing := some (getSettings r d it.attrs).easing
            content := { it.content with
              isClosing := some "true"
              noFade := !(getSettings r d it.attrs).contentFade
              transition := .disabled
              overflow := "hidden"
              maxHeight := .pxImp it.content.naturalHeight } },
         some { rafRegistered := true
                transEndRegistered := true
                timeoutRegistered := true
                timeoutDelayMs := some (((getSettings r d it.attrs).duration.mul
                  (JNum.num 1000)).add (JNum.num 100))
                s := getSettings r d it.attrs
                currentHeight := it.content.naturalHeight })
      else
        (cleanupClose (getSettings r d it.attrs)
          { it with
              aaDuration := some (getSettings r d it.attrs).duration
              aaEasing := some (getSettings r d it.attrs).easing
              content := { it.content with
                isClosing := some "true"
                noFade := !(getSettings r d it.attrs).contentFade
                transition := .disabled
                overflow := "hidden"
                maxHeight := .zeroPx } },
         some { s := getSettings r d it.attrs
                currentHeight := it.content.naturalHeight })) := by
  simp only [closeItemSync]
  rw [if_neg h]

/-! ## C1 -/

/-- C1: the claim says `dataNum` on a present but non-numeric value
(`data-duration="abc"` on a Container) returns the fallback `0.4` and
never `NaN`.  The code has no `isNaN` check: `parseFloat("abc")` is
`NaN` and is returned as is, so the container default `duration`
resolves to `NaN`, not `0.4`. -/
theorem c1_dataNum_nonNumeric_yields_nan :
    dataNum [("data-duration", "abc")] "duration" (JNum.num (mkJQ 2 5)) = JNum.nan
    ∧ (containerDefaults [("data-duration", "abc")]).duration = JNum.nan
    ∧ JNum.nan ≠ JNum.num (mkJQ 2 5) := by
  decide

/-! ## C8 -/

/-- C8: the resolved profile starts from the container defaults,
replaces each field iff the item's attribute is present (with the
attribute's parsed value, so explicit `false`/`0` overrides are
honoured), and reduced motion forces `duration`, `fadeDuration` and
`stagger` to zero. -/
theorem c8_settings_resolution (r : Bool) (d : Settings) (a : Attrs) :
    (r = true →
      (getSettings r d a).duration = JNum.num 0
      ∧ (getSettings r d a).fadeDuration = JNum.num 0
      ∧ (getSettings r d a).stagger = JNum.num 0)
    ∧ (r = false → getAttr a "data-duration" = none →
        (getSettings r d a).duration = d.duration)
    ∧ (r = false → ∀ v, getAttr a "data-duration" = some v →
        (getSettings r d a).duration = parseFloat v)
    ∧ (r = false → getAttr a "data-fade-duration" = none →
        (getSettings r d a).fadeDuration = d.fadeDuration)
    ∧ (r = false → ∀ v, getAttr a "data-fade-duration" = some v →
        (getSettings r d a).fadeDuration = parseFloat v)
    ∧ (r = false → getAttr a "data-stagger" = none →
        (getSettings r d a).stagger = d.stagger)
    ∧ (r = false → ∀ v, getAttr a "data-stagger" = some v →
        (getSettings r d a).stagger = parseFloat v)
    ∧ (getAttr a "data-easing" = none → (getSettings r d a).easing = d.easing)
    ∧ (∀ v, getAttr a "data-easing" = some v → (getSettings r d a).easing = v)
    ∧ (getAttr a "data-content-fade" = none →
        (getSettings r d a).contentFade = d.contentFade)
    ∧ (∀ v, getAttr a "data-content-fade" = some v →
        ((getSettings r d a).contentFade = true ↔ v = "true"))
    ∧ (getAttr a "data-slide-distance" = none →
        (getSettings r d a).slideDistance = d.slideDistance)
    ∧ (∀ v, getAttr a "data-slide-distance" = some v →
        (getSettings r d a).slideDistance = parseFloat v) := by
  refine ⟨?_, ?_, ?_, ?_, ?_, ?_, ?_, ?_, ?_, ?_, ?_, ?_, ?_⟩
  · intro hr
    refine ⟨?_, ?_, ?_⟩ <;>
      simp [getSettings_duration, getSettings_fadeDuration, getSettings_stagger, hr]
  · intro hr h
    rw [getSettings_duration]; simp [hr, hasAttr, h]
  · intro hr v h
    rw [getSettings_duration]; simp [hr, hasAttr, h, dataNum]
  · intro hr h
    rw [getSettings_fadeDuration]; simp [hr, hasAttr, h]
  · intro hr v h
    rw [getSettings_fadeDuration]; simp [hr, hasAttr, h, dataNum]
  · intro hr h
    rw [getSettings_stagger]; simp [hr, hasAttr, h]
  · intro hr v h
    rw [getSettings_stagger]; simp [hr, hasAttr, h, dataNum]
  · intro h
    rw [getSettings_easing]; simp [hasAttr, h]
  · intro v h
    rw [getSettings_easing]; simp [hasAttr, h, dataStr]
  · intro h
    rw [getSettings_contentFade]; simp [hasAttr, h]
  · intro v h
    rw [getSettings_contentFade]; simp [hasAttr, h, dataBool]
  · intro h
    rw [getSettings_slideDistance]; simp [hasAttr, h]
  · intro v h
    rw [getSettings_slideDistance]; simp [hasAttr, h, dataNum]

/-- Witness for C8 at concrete inputs: reduced motion zeroes the
duration; an explicit `data-duration="0"` override is honoured; an
explicit `data-content-fade="false"` override is honoured; an absent
attribute inherits the container default. -/
theorem c8_witness :
    (getSettings true (containerDefaults []) []).duration = JNum.num 0
    ∧ (getSettings false (containerDefaults []) [("data-duration", "0")]).duration
        = parseFloat "0"
    ∧ ((getSettings false (containerDefaults [])
          [("data-content-fade", "false")]).contentFade = true
        ↔ ("false" : String) = "true")
    ∧ (getSettings false (containerDefaults []) []).duration
        = (containerDefaults []).duration := by
  refine ⟨((c8_settings_resolution true (containerDefaults []) []).1 rfl).1,
    (c8_settings_resolution false (containerDefaults [])
      [("data-duration", "0")]).2.2.1 rfl "0" rfl,
    (c8_settings_resolution false (containerDefaults [])
      [("data-content-fade", "false")]).2.2.2.2.2.2.2.2.2.2.1 "false" rfl,
    (c8_settings_resolution false (containerDefaults []) []).2.1 rfl rfl⟩

/-! ## C9 -/

/-- C9: `dataBool` returns the fallback exactly when the attribute is
absent; when present it is `true` iff the raw value is exactly the
string `"true"`, regardless of the fallback. -/
theorem c9_dataBool_exact_true (attrs : Attrs) (attr : String) (fb : Bool) :
    (getAttr attrs ("data-" ++ attr) = none → dataBool attrs attr fb = fb)
    ∧ (∀ v, getAttr attrs ("data-" ++ attr) = some v →
        (dataBool attrs attr fb = true ↔ v = "true")) := by
  constructor
  · intro h; simp [dataBool, h]
  · intro v h; simp [dataBool, h]

/-- Witness for C9: absent attribute yields the fallback; present
`"TRUE"` yields `false` even with fallback `true`. -/
theorem c9_witness :
    dataBool [] "x" true = true
    ∧ (dataBool [("data-x", "TRUE")] "x" true = true ↔ ("TRUE" : String) = "true")
    ∧ dataBool [("data-x", "TRUE")] "x" true = false
    ∧ dataBool [("data-x", "1")] "x" true = false
    ∧ dataBool [("data-x", "true")] "x" false = true := by
  refine ⟨(c9_dataBool_exact_true [] "x" true).1 rfl,
    (c9_dataBool_exact_true [("data-x", "TRUE")] "x" true).2 "TRUE" rfl,
    by decide, by decide, by decide⟩


/-! ## C2 -/

/-- C2 (counterexample): the claim says that at resolved duration 0
(here: reduced motion active) the open operation registers no
animation-frame callback; but `_openItem` calls
`requestAnimationFrame` unconditionally (`view.js` 250), so one is
registered even on the instant path. -/
theorem c2_counterexample :
    (getSettings true (containerDefaults [])
        (sampleItem [("data-duration", "0.7")]).attrs).duration = JNum.num 0
    ∧ (openItemSync true (containerDefaults []) false
        (sampleItem [("data-duration", "0.7")])).2.rafRegistered = true := by
  decide

/-- C2 (amended): at resolved duration 0 the close operation reaches
its complete closed end-state synchronously and registers no
animation-frame callback, no transitionend handler and no timeout; the
open operation reaches its open end-state (is-open, aria-expanded,
unhidden, max-height released) synchronously and registers no
transitionend handler, but still registers one animation-frame
callback, which later re-imposes the measured pixel max-height. -/
theorem c2_zero_duration_paths (reduced : Bool) (defaults : Settings) (it : Item)
    (hdur : (getSettings reduced defaults it.attrs).duration.gt0 = false)
    (hguard : it.content.isClosing ≠ some "true") :
    ((closeItemSync reduced defaults it).1.isOpenClass = false
      ∧ (closeItemSync reduced defaults it).1.ariaExpanded = "false"
      ∧ (closeItemSync reduced defaults it).1.content.hidden = true
      ∧ (closeItemSync reduced defaults it).1.content.maxHeight = MaxHeight.unset
      ∧ (closeItemSync reduced defaults it).1.content.transition = TransitionStyle.unset
      ∧ (closeItemSync reduced defaults it).1.content.isClosing = some "false"
      ∧ (closeItemSync reduced defaults it).2.map CloseSched.rafRegistered = some false
      ∧ (closeItemSync reduced defaults it).2.map CloseSched.transEndRegistered
          = some false
      ∧ (closeItemSync reduced defaults it).2.map CloseSched.timeoutRegistered
          = some false)
    ∧ ((openItemSync reduced defaults false it).1.isOpenClass = true
      ∧ (openItemSync reduced defaults false it).1.ariaExpanded = "true"
      ∧ (openItemSync reduced defaults false it).1.content.hidden = false
      ∧ (openItemSync reduced defaults false it).1.content.maxHeight = MaxHeight.noneV
      ∧ (openItemSync reduced defaults false it).2.transEndRegistered = false
      ∧ (openItemSync reduced defaults false it).2.rafRegistered = true
      ∧ (openRAF (openItemSync reduced defaults false it).2
          (openItemSync reduced defaults false it).1).content.maxHeight
          = MaxHeight.px it.content.naturalHeight) := by
  constructor
  · rw [closeItemSync_of_not_closing reduced defaults it hguard]
    simp [hdur, cleanupClose_eq]
  · simp [openItemSync_fst, openItemSync_snd, openRAF, hdur,
      apply_ite Item.content, apply_ite Content.maxHeight, ite_self]

/-- Witness for C2 at a concrete item with configured duration 0.7
under reduced motion. -/
theorem c2_witness :
    (closeItemSync true (containerDefaults [])
        (sampleItem [("data-duration", "0.7")])).1.isOpenClass = false
    ∧ (openItemSync true (containerDefaults []) false
        (sampleItem [("data-duration", "0.7")])).2.transEndRegistered = false :=
  ⟨((c2_zero_duration_paths true (containerDefaults [])
      (sampleItem [("data-duration", "0.7")]) (by decide) (by decide)).1).1,
   ((c2_zero_duration_paths true (containerDefaults [])
      (sampleItem [("data-duration", "0.7")]) (by decide) (by decide)).2).2.2.2.2.1⟩

/-! ## C4 -/

/-- C4 (counterexample): the claim's consequence "at most one
open/close animation is ever in flight per Item" fails: a close issued
right after `_openItem` with duration 0.4 finds the open's
transitionend handling still registered (it is only removed when it
fires) and itself registers a second animation's callbacks, so two
animations are in flight for the same item. -/
theorem c4_counterexample :
    (openItemSync false (containerDefaults []) false
        (sampleItem [("data-duration", "0.4")])).2.transEndRegistered = true
    ∧ ((closeItemSync false (containerDefaults [])
        (openItemSync false (containerDefaults []) false
          (sampleItem [("data-duration", "0.4")])).1).2.map
          CloseSched.transEndRegistered = some true)
    ∧ ((closeItemSync false (containerDefaults [])
        (openItemSync false (containerDefaults []) false
          (sampleItem [("data-duration", "0.4")])).1).2.map
          CloseSched.rafRegistered = some true)
    ∧ (closeItemSync false (containerDefaults [])
        (openItemSync false (containerDefaults []) false
          (sampleItem [("data-duration", "0.4")])).1).1
        ≠ (openItemSync false (containerDefaults []) false
            (sampleItem [("data-duration", "0.4")])).1 := by
  decide

/-- C4 (amended): a close request while a close is already in flight
for the same item (`dataset.isClosing === 'true'`) returns before
touching any state and registers no callback, so at most one close is
ever in flight per item (open animations can still overlap a close). -/
theorem c4_close_guard (r : Bool) (d : Settings) (it : Item)
    (h : it.content.isClosing = some "true") :
    closeItemSync r d it = (it, none) := by
  simp [closeItemSync, h]

/-- Witness for C4: a concrete mid-close item; the second close request
is exactly a no-op. -/
theorem c4_witness :
    closeItemSync false (containerDefaults [])
        { sampleItem [] with
            content := { (sampleItem []).content with isClosing := some "true" } }
      = ({ sampleItem [] with
            content := { (sampleItem []).content with isClosing := some "true" } },
         none) :=
  c4_close_guard false (containerDefaults []) _ rfl

/-! ## C6 -/

/-- C6 (counterexample): for an open with duration 0.4 > 0 the claim
asserts a fallback timeout of duration*1000+100 ms; `_openItem`
registers no timeout at all (only a transitionend handler), so a
transitionend that never fires leaves the pixel constraint in place
indefinitely. -/
theorem c6_counterexample :
    (getSettings false (containerDefaults [])
        (sampleItem [("data-duration", "0.4")]).attrs).duration.gt0 = true
    ∧ (openItemSync false (containerDefaults []) false
        (sampleItem [("data-duration", "0.4")])).2.transEndRegistered = true
    ∧ (openItemSync false (containerDefaults []) false
        (sampleItem [("data-duration", "0.4")])).2.timeoutRegistered = false := by
  decide

/-- C6 (amended): for duration > 0 the open path releases the height
constraint only via a transitionend matched specifically on
max-height (other property names are ignored) and registers no
fallback timeout; the duration*1000+100 ms fallback exists only in the
close path, whose transitionend handler and timeout both run the same
cleanup. -/
theorem c6_release_paths (r : Bool) (d : Settings) (it : Item)
    (hdur : (getSettings r d it.attrs).duration.gt0 = true) :
    ((openItemSync r d false it).2.transEndRegistered = true)
    ∧ ((openItemSync r d false it).2.timeoutRegistered = false)
    ∧ ((openOnEnd "max-height" (openItemSync r d false it).1).content.maxHeight
        = MaxHeight.noneV)
    ∧ (∀ p, p ≠ "max-height" →
        openOnEnd p (openItemSync r d false it).1 = (openItemSync r d false it).1)
    ∧ (∀ s x, closeTransEnd true "max-height" s x = cleanupClose s x)
    ∧ (∀ s x, closeFallback s x = cleanupClose s x)
    ∧ (∀ s x, (cleanupClose s x).content.maxHeight = MaxHeight.unset)
    ∧ (it.content.isClosing ≠ some "true" →
        (closeItemSync r d it).2.map CloseSched.timeoutRegistered = some true
        ∧ (closeItemSync r d it).2.bind CloseSched.timeoutDelayMs
            = some (((getSettings r d it.attrs).duration.mul (JNum.num 1000)).add
                (JNum.num 100))) := by
  refine ⟨?_, ?_, ?_, ?_, ?_, ?_, ?_, ?_⟩
  · simp [openItemSync_snd, hdur]
  · simp [openItemSync_snd]
  · simp [openOnEnd]
  · intro p hp; simp [openOnEnd, hp]
  · intro s x; simp [closeTransEnd]
  · intro s x; simp [closeFallback]
  · intro s x; simp [cleanupClose_eq]
  · intro hg
    rw [closeItemSync_of_not_closing r d it hg]
    simp [hdur]

/-- Witness for C6 at a concrete item with duration 0.4: transitionend
handler registered for the open, and the close fallback delay is
0.4*1000+100 = 500 ms. -/
theorem c6_witness :
    (openItemSync false (containerDefaults []) false
        (sampleItem [("data-duration", "0.4")])).2.transEndRegistered = true
    ∧ (closeItemSync false (containerDefaults [])
        (sampleItem [("data-duration", "0.4")])).2.bind CloseSched.timeoutDelayMs
        = some (((getSettings false (containerDefaults [])
            (sampleItem [("data-duration", "0.4")]).attrs).duration.mul
              (JNum.num 1000)).add (JNum.num 100))
    ∧ (((getSettings false (containerDefaults [])
          (sampleItem [("data-duration", "0.4")]).attrs).duration.mul
            (JNum.num 1000)).add (JNum.num 100)) = JNum.num 500 :=
  ⟨(c6_release_paths false (containerDefaults [])
      (sampleItem [("data-duration", "0.4")]) (by decide)).1,
   ((c6_release_paths false (containerDefaults [])
      (sampleItem [("data-duration", "0.4")]) (by decide)).2.2.2.2.2.2.2
      (by decide)).2,
   by decide⟩


/-! ## C3 -/

/-- C3 (counterexample): open-then-close does not return the item to
exactly its pre-open DOM state (checked at contentFade = true,
duration = 0, both within the claim's parameter grid): the
just-initialised closed state has inline `max-height: '0'` and
`overflow: 'hidden'`, but the post-close cleanup clears both to `''`
and leaves a `data-is-closing="false"` marker behind. -/
theorem c3_counterexample :
    runClose false (containerDefaults [])
        (runOpen false (containerDefaults [])
          (sampleItem [("data-duration", "0"), ("data-content-fade", "true")]))
      ≠ sampleItem [("data-duration", "0"), ("data-content-fade", "true")]
    ∧ (runClose false (containerDefaults [])
        (runOpen false (containerDefaults [])
          (sampleItem [("data-duration", "0"), ("data-content-fade", "true")]))).content.maxHeight
      = MaxHeight.unset
    ∧ (sampleItem [("data-duration", "0"), ("data-content-fade", "true")]).content.maxHeight
      = MaxHeight.zeroStr := by
  decide

/-- C3 (amended): for contentFade in {true,false} and duration in
{0, 0.4}, open-then-close (letting each animation complete) restores
the hidden flag and closed markers and leaves no residual inline
height, opacity or transform on the content panel or its animated
children (child styles are exactly the pristine pre-open ones), but it
does not restore the exact pre-open DOM state: the init-time inline
`max-height: '0'` and `overflow: 'hidden'` are cleared to `''`, a
`data-is-closing="false"` marker remains, and the item-level
`--aa-duration`/`--aa-easing` custom properties stay set. -/
theorem c3_round_trip :
    ∀ fade dz : Bool,
      (runClose false (containerDefaults [])
          (runOpen false (containerDefaults [])
            (sampleItem [("data-duration", if dz then "0" else "0.4"),
                         ("data-content-fade", if fade then "true" else "false")]))).isOpenClass
          = false
      ∧ (runClose false (containerDefaults [])
          (runOpen false (containerDefaults [])
            (sampleItem [("data-duration", if dz then "0" else "0.4"),
                         ("data-content-fade", if fade then "true" else "false")]))).ariaExpanded
          = "false"
      ∧ (runClose false (containerDefaults [])
          (runOpen false (containerDefaults [])
            (sampleItem [("data-duration", if dz then "0" else "0.4"),
                         ("data-content-fade", if fade then "true" else "false")]))).content.hidden
          = true
      ∧ (runClose false (containerDefaults [])
          (runOpen false (containerDefaults [])
            (sampleItem [("data-duration", if dz then "0" else "0.4"),
                         ("data-content-fade", if fade then "true" else "false")]))).content.maxHeight
          = MaxHeight.unset
      ∧ (runClose false (containerDefaults [])
          (runOpen false (containerDefaults [])
            (sampleItem [("data-duration", if dz then "0" else "0.4"),
                         ("data-content-fade", if fade then "true" else "false")]))).content.opacity
          = ""
      ∧ (runClose false (containerDefaults [])
          (runOpen false (containerDefaults [])
            (sampleItem [("data-duration", if dz then "0" else "0.4"),
                         ("data-content-fade", if fade then "true" else "false")]))).content.children
          = sampleChildren
      ∧ (runClose false (containerDefaults [])
          (runOpen false (containerDefaults [])
            (sampleItem [("data-duration", if dz then "0" else "0.4"),
                         ("data-content-fade", if fade then "true" else "false")]))).content.overflow
          = ""
      ∧ (runClose false (containerDefaults [])
          (runOpen false (containerDefaults [])
            (sampleItem [("data-duration", if dz then "0" else "0.4"),
                         ("data-content-fade", if fade then "true" else "false")]))).content.isClosing
          = some "false"
      ∧ (runClose false (containerDefaults [])
          (runOpen false (containerDefaults [])
            (sampleItem [("data-duration", if dz then "0" else "0.4"),
                         ("data-content-fade", if fade then "true" else "false")])))
          ≠ sampleItem [("data-duration", if dz then "0" else "0.4"),
                        ("data-content-fade", if fade then "true" else "false")] := by
  decide

/-! ## C7 -/

/-- C7 (counterexample): the claim says exactly the open panels in the
natural-height-released state (`max-height: none`) are refreshed and
mid-animation panels are unaffected; the code tests
`style.maxHeight !== 'none'`, which is the opposite: a released open
panel is left untouched, while an open panel mid-animation (pixel
max-height 50, natural height 120) is rewritten to its scroll
height. -/
theorem c7_counterexample :
    recalcOpenHeights
        [{ sampleItem [] with
            isOpenClass := true
            content := { (sampleItem []).content with
              hidden := false
              maxHeight := .noneV } }]
      = [{ sampleItem [] with
            isOpenClass := true
            content := { (sampleItem []).content with
              hidden := false
              maxHeight := .noneV } }]
    ∧ recalcOpenHeights
        [{ sampleItem [] with
            isOpenClass := true
            content := { (sampleItem []).content with
              hidden := false
              maxHeight := .px 50 } }]
      = [{ sampleItem [] with
            isOpenClass := true
            content := { (sampleItem []).content with
              hidden := false
              maxHeight := .px 120 } }]
    ∧ MaxHeight.px 50 ≠ MaxHeight.noneV := by
  decide

/-- C7 (amended): on a resize recalculation, exactly the items that are
open, not mid-close, and whose inline max-height is NOT `'none'` (i.e.
still pixel-constrained, e.g. mid-animation or instant-opened) have
their max-height rewritten to the current natural scroll height;
closed items, closing items, and released (`max-height: none`) panels
are untouched. -/
theorem c7_recalc_characterization (items : List Item) (i : ℕ) (it : Item)
    (h : items.get? i = some it) :
    (it.isOpenClass = false → (recalcOpenHeights items).get? i = some it)
    ∧ (it.content.isClosing = some "true" → (recalcOpenHeights items).get? i = some it)
    ∧ (it.content.maxHeight = .noneV → (recalcOpenHeights items).get? i = some it)
    ∧ (it.isOpenClass = true → it.content.isClosing ≠ some "true" →
        it.content.maxHeight ≠ .noneV →
        (recalcOpenHeights items).get? i =
          some { it with content :=
            { it.content with maxHeight := .px it.content.naturalHeight } }) := by
  have hm : (recalcOpenHeights items).get? i = some (recalcItem it) := by
    rw [recalcOpenHeights, List.get?_map, h]; rfl
  refine ⟨?_, ?_, ?_, ?_⟩
  · intro h1
    rw [hm]
    simp [recalcItem, h1]
  · intro h2
    rw [hm]
    cases hio : it.isOpenClass <;> simp [recalcItem, hio, h2]
  · intro h3
    rw [hm]
    cases hio : it.isOpenClass <;>
      by_cases hic : it.content.isClosing = some "true" <;>
        simp [recalcItem, hio, hic, h3]
  · intro h1 h2 h3
    rw [hm]
    simp [recalcItem, h1, h2, h3]

/-- Witness for C7: a concrete open, not-closing, pixel-constrained
item is refreshed to its natural height by the resize pass. -/
theorem c7_witness :
    (recalcOpenHeights
        [{ sampleItem [] with
            isOpenClass := true
            content := { (sampleItem []).content with
              hidden := false
              maxHeight := .px 30 } }]).get? 0
      = some { { sampleItem [] with
            isOpenClass := true
            content := { (sampleItem []).content with
              hidden := false
              maxHeight := .px 30 } } with
          content := { { sampleItem [] with
              isOpenClass := true
              content := { (sampleItem []).content with
                hidden := false
                maxHeight := .px 30 } }.content with
            maxHeight := .px ({ sampleItem [] with
              isOpenClass := true
              content := { (sampleItem []).content with
                hidden := false
                maxHeight := .px 30 } }).content.naturalHeight } } :=
  (c7_recalc_characterization
      [{ sampleItem [] with
          isOpenClass := true
          content := { (sampleItem []).content with
            hidden := false
            maxHeight := .px 30 } }] 0
      { sampleItem [] with
          isOpenClass := true
          content := { (sampleItem []).content with
            hidden := false
            maxHeight := .px 30 } } rfl).2.2.2 rfl (by decide) (by decide)


/-! ## Document-level helper lemmas -/

theorem truthyAttr_some_iff (a : Attrs) (n : String) (sg : String) :
    truthyAttr a n = some sg ↔ getAttr a n = some sg ∧ sg ≠ "" := by
  unfold truthyAttr
  cases h : getAttr a n with
  | none => simp
  | some s => by_cases hs : s = "" <;> simp [hs] <;> aesop
theorem closeItemSync_closes (r : Bool) (d : Settings) (it : Item) :
    (closeItemSync r d it).1.isOpenClass = false
    ∨ (closeItemSync r d it).1.content.isClosing = some "true" := by
  by_cases hg : it.content.isClosing = some "true"
  · right; simp [closeItemSync, hg]
  · rw [closeItemSync_of_not_closing r d it hg]
    by_cases hd : (getSettings r d it.attrs).duration.gt0 = true
    · right; simp [hd]
    · left; simp [eq_false_of_ne_true hd, cleanupClose_eq]
theorem closeItemSync_zero_close (r : Bool) (d : Settings) (it : Item)
    (h1 : (getSettings r d it.attrs).duration.gt0 = false)
    (h2 : it.content.isClosing ≠ some "true") :
    (closeItemSync r d it).1.isOpenClass = false
    ∧ (closeItemSync r d it).1.content.hidden = true := by
  rw [closeItemSync_of_not_closing r d it h2]
  simp [h1, cleanupClose_eq]

theorem get0_mapIdxFrom (f : ℕ → α → α) (l : List α) (i : ℕ) :
    (mapIdxFrom f 0 l).get? i = (l.get? i).map (f i) := by
  rw [get?_mapIdxFrom]
  simp

theorem docItem?_eq_some (doc : Doc) (ci ii : ℕ) (it : Item) :
    docItem? doc ci ii = some it ↔
      ∃ c, doc.get? ci = some c ∧ c.items.get? ii = some it := by
  unfold docItem?
  cases doc.get? ci <;> simp

theorem toggleOpenCloseAt_docItem? (r : Bool) (df : Settings) (io : Bool)
    (doc : Doc) (tci tii cj ij : ℕ) (cc : Container) (itj : Item)
    (hc : doc.get? cj = some cc) (hij : cc.items.get? ij = some itj) :
    ∃ cc2, (toggleOpenCloseAt r df io doc tci tii).get? cj = some cc2
      ∧ cc2.attrs = cc.attrs
      ∧ cc2.items.get? ij = some (toggleItemFn r df io tci tii cj ij itj) := by
  refine ⟨{ cc with items := mapIdxFrom (toggleItemFn r df io tci tii cj) 0 cc.items },
    ?_, rfl, ?_⟩
  · unfold toggleOpenCloseAt
    rw [get0_mapIdxFrom, hc]
    rfl
  · dsimp only
    rw [get0_mapIdxFrom, hij]
    rfl

theorem syncLinkedGroup_docItem? (r : Bool) (doc : Doc) (gid : String)
    (tci tii : ℕ) (so : Bool) (cj ij : ℕ) (cc : Container) (itj : Item)
    (hc : doc.get? cj = some cc) (hij : cc.items.get? ij = some itj) :
    ∃ cc2, (syncLinkedGroup r doc gid tci tii so).get? cj = some cc2
      ∧ cc2.attrs = cc.attrs
      ∧ cc2.items.get? ij = some (syncItemFn r gid tci tii so cc.attrs cj ij itj) := by
  refine ⟨{ cc with items := mapIdxFrom (syncItemFn r gid tci tii so cc.attrs cj) 0 cc.items },
    ?_, rfl, ?_⟩
  · unfold syncLinkedGroup
    rw [get0_mapIdxFrom, hc]
    rfl
  · dsimp only
    rw [get0_mapIdxFrom, hij]
    rfl

theorem autoCloseSiblings_docItem? (r : Bool) (doc : Doc) (tci tii : ℕ)
    (graw : Option String) (cj ij : ℕ) (cc : Container) (itj : Item)
    (hc : doc.get? cj = some cc) (hij : cc.items.get? ij = some itj) :
    ∃ cc2, (autoCloseSiblings r doc tci tii graw).get? cj = some cc2
      ∧ cc2.attrs = cc.attrs
      ∧ cc2.items.get? ij = some (autoCloseItemFn r tci tii graw cc.attrs cj ij itj) := by
  refine ⟨{ cc with items := mapIdxFrom (autoCloseItemFn r tci tii graw cc.attrs cj) 0 cc.items },
    ?_, rfl, ?_⟩
  · unfold autoCloseSiblings
    rw [get0_mapIdxFrom, hc]
    rfl
  · dsimp only
    rw [get0_mapIdxFrom, hij]
    rfl

/-! ## C5 -/

/-- C5: with `autoClose` true, toggling a closed item open closes every
other currently open sibling, except a sibling whose truthy (non-null)
`data-link-group` equals the toggled item's `data-link-group`; the
toggled item itself ends up open.  A closed sibling is one whose close
has completed (instant path) or been initiated (`isClosing` set); at
resolved duration 0 with no close already in flight, it is fully
closed (`is-open` removed, panel hidden).  (The A/B/C scenario of the
claim is the witness below.) -/
theorem c5_auto_close_exception (reduced : Bool) (cattrs : Attrs) (items : List Item)
    (ii j : ℕ) (item itj : Item)
    (hii : items.get? ii = some item)
    (hjj : items.get? j = some itj)
    (hac : dataBool cattrs "auto-close" false = true)
    (hclosed : item.isOpenClass = false)
    (hne : j ≠ ii)
    (hopen : itj.isOpenClass = true) :
    (∃ it2, docItem? (toggleAt reduced [⟨cattrs, items⟩] 0 ii) 0 ii = some it2
      ∧ it2.isOpenClass = true ∧ it2.ariaExpanded = "true")
    ∧ ∃ itj2, docItem? (toggleAt reduced [⟨cattrs, items⟩] 0 ii) 0 j = some itj2
      ∧ ((∃ sg, truthyAttr itj.attrs "data-link-group" = some sg
            ∧ getAttr item.attrs "data-link-group" = some sg) → itj2 = itj)
      ∧ ((¬∃ sg, truthyAttr itj.attrs "data-link-group" = some sg
            ∧ getAttr item.attrs "data-link-group" = some sg) →
          itj2.isOpenClass = false ∨ itj2.content.isClosing = some "true")
      ∧ ((¬∃ sg, truthyAttr itj.attrs "data-link-group" = some sg
            ∧ getAttr item.attrs "data-link-group" = some sg) →
          (getSettings reduced (containerDefaults cattrs) itj.attrs).duration.gt0 = false →
          itj.content.isClosing ≠ some "true" →
          itj2.isOpenClass = false ∧ itj2.content.hidden = true) := by
  have hgc : ([⟨cattrs, items⟩] : Doc).get? 0 = some ⟨cattrs, items⟩ := rfl
  have hgi : (⟨cattrs, items⟩ : Container).items.get? ii = some item := hii
  have hgj : (⟨cattrs, items⟩ : Container).items.get? j = some itj := hjj
  have hacond : (!item.isOpenClass && dataBool cattrs "auto-close" false) = true := by
    rw [hclosed, hac]; rfl
  have hnej : ¬((0 : ℕ) = 0 ∧ j = ii) := fun h => hne h.2
  have hneii : ((0 : ℕ) = 0 ∧ ii = ii) := ⟨rfl, rfl⟩
  simp only [toggleAt, hgc, hgi]
  constructor
  · -- the toggled item itself ends up open
    obtain ⟨cc1, h1c, h1a, h1i⟩ := toggleOpenCloseAt_docItem? reduced
      (containerDefaults cattrs) item.isOpenClass [⟨cattrs, items⟩] 0 ii 0 ii
      ⟨cattrs, items⟩ item hgc hgi
    rw [toggleItemFn, if_pos hneii, hclosed, if_neg (by simp)] at h1i
    cases htg : truthyAttr item.attrs "data-link-group" with
    | none =>
        simp only [htg, hacond, if_true]
        obtain ⟨cc2, h2c, h2a, h2i⟩ := autoCloseSiblings_docItem? reduced _ 0 ii
          (getAttr item.attrs "data-link-group") 0 ii cc1 _ h1c h1i
        rw [autoCloseItemFn, if_pos rfl, if_pos rfl] at h2i
        exact ⟨_, (docItem?_eq_some _ 0 ii _).2 ⟨cc2, h2c, h2i⟩,
          by simp [openItemSync_fst], by simp [openItemSync_fst]⟩
    | some gid =>
        simp only [htg, hacond, if_true]
        obtain ⟨cc2, h2c, h2a, h2i⟩ := syncLinkedGroup_docItem? reduced _ gid 0 ii
          (!item.isOpenClass) 0 ii cc1 _ h1c h1i
        rw [syncItemFn, if_pos hneii] at h2i
        obtain ⟨cc3, h3c, h3a, h3i⟩ := autoCloseSiblings_docItem? reduced _ 0 ii
          (getAttr item.attrs "data-link-group") 0 ii cc2 _ h2c h2i
        rw [autoCloseItemFn, if_pos rfl, if_pos rfl] at h3i
        exact ⟨_, (docItem?_eq_some _ 0 ii _).2 ⟨cc3, h3c, h3i⟩,
          by simp [openItemSync_fst], by simp [openItemSync_fst]⟩
  · -- the sibling
    obtain ⟨cc1, h1c, h1a, h1i⟩ := toggleOpenCloseAt_docItem? reduced
      (containerDefaults cattrs) item.isOpenClass [⟨cattrs, items⟩] 0 ii 0 j
      ⟨cattrs, items⟩ itj hgc hgj
    rw [toggleItemFn, if_neg hnej] at h1i
    cases htg : truthyAttr item.attrs "data-link-group" with
    | none =>
        simp only [htg, hacond, if_true]
        obtain ⟨cc2, h2c, h2a, h2i⟩ := autoCloseSiblings_docItem? reduced _ 0 ii
          (getAttr item.attrs "data-link-group") 0 j cc1 itj h1c h1i
        rw [h1a] at h2i
        refine ⟨_, (docItem?_eq_some _ 0 j _).2 ⟨cc2, h2c, h2i⟩, ?_, ?_, ?_⟩
        · rintro ⟨sg, ht1, ht2⟩
          obtain ⟨hraw, hsg⟩ := (truthyAttr_some_iff itj.attrs "data-link-group" sg).1 ht1
          have hcontra : truthyAttr item.attrs "data-link-group" = some sg :=
            (truthyAttr_some_iff item.attrs "data-link-group" sg).2 ⟨ht2, hsg⟩
          rw [htg] at hcontra
          exact absurd hcontra (by simp)
        · intro hno
          cases htj : truthyAttr itj.attrs "data-link-group" with
          | none =>
              simp only [autoCloseItemFn, if_pos rfl, hne, hopen, htj, if_false,
                if_true, ite_false, ite_true]
              exact closeItemSync_closes reduced (containerDefaults cattrs) itj
          | some sg =>
              have hgne : getAttr item.attrs "data-link-group" ≠ some sg :=
                fun hraw => hno ⟨sg, htj, hraw⟩
              simp only [autoCloseItemFn, if_pos rfl, hne, hopen, htj, hgne, if_false,
                if_true, ite_false, ite_true]
              exact closeItemSync_closes reduced (containerDefaults cattrs) itj
        · intro hno hz hcl
          cases htj : truthyAttr itj.attrs "data-link-group" with
          | none =>
              simp only [autoCloseItemFn, if_pos rfl, hne, hopen, htj, if_false,
                if_true, ite_false, ite_true]
              exact closeItemSync_zero_close reduced (containerDefaults cattrs) itj hz hcl
          | some sg =>
              have hgne : getAttr item.attrs "data-link-group" ≠ some sg :=
                fun hraw => hno ⟨sg, htj, hraw⟩
              simp only [autoCloseItemFn, if_pos rfl, hne, hopen, htj, hgne, if_false,
                if_true, ite_false, ite_true]
              exact closeItemSync_zero_close reduced (containerDefaults cattrs) itj hz hcl
    | some gid =>
        simp only [htg, hacond, if_true]
        obtain ⟨cc2, h2c, h2a, h2i⟩ := syncLinkedGroup_docItem? reduced _ gid 0 ii
          (!item.isOpenClass) 0 j cc1 itj h1c h1i
        have hsync : syncItemFn reduced gid 0 ii (!item.isOpenClass) cc1.attrs 0 j itj = itj := by
          rw [syncItemFn, if_neg hnej]
          by_cases hm : getAttr itj.attrs "data-link-group" = some gid
          · simp [hm, hclosed, hopen]
          · simp [hm]
        rw [hsync] at h2i
        obtain ⟨cc3, h3c, h3a, h3i⟩ := autoCloseSiblings_docItem? reduced _ 0 ii
          (getAttr item.attrs "data-link-group") 0 j cc2 itj h2c h2i
        rw [h2a, h1a] at h3i
        refine ⟨_, (docItem?_eq_some _ 0 j _).2 ⟨cc3, h3c, h3i⟩, ?_, ?_, ?_⟩
        · rintro ⟨sg, ht1, ht2⟩
          simp only [autoCloseItemFn, if_pos rfl, hne, hopen, ht1, ht2, if_false,
            if_true, ite_false, ite_true]
        · intro hno
          cases htj : truthyAttr itj.attrs "data-link-group" with
          | none =>
              simp only [autoCloseItemFn, if_pos rfl, hne, hopen, htj, if_false,
                if_true, ite_false, ite_true]
              exact closeItemSync_closes reduced (containerDefaults cattrs) itj
          | some sg =>
              have hgne : getAttr item.attrs "data-link-group" ≠ some sg :=
                fun hraw => hno ⟨sg, htj, hraw⟩
              simp only [autoCloseItemFn, if_pos rfl, hne, hopen, htj, hgne, if_false,
                if_true, ite_false, ite_true]
              exact closeItemSync_closes reduced (containerDefaults cattrs) itj
        · intro hno hz hcl
          cases htj : truthyAttr itj.attrs "data-link-group" with
          | none =>
              simp only [autoCloseItemFn, if_pos rfl, hne, hopen, htj, if_false,
                if_true, ite_false, ite_true]
              exact closeItemSync_zero_close reduced (containerDefaults cattrs) itj hz hcl
          | some sg =>
              have hgne : getAttr item.attrs "data-link-group" ≠ some sg :=
                fun hraw => hno ⟨sg, htj, hraw⟩
              simp only [autoCloseItemFn, if_pos rfl, hne, hopen, htj, hgne, if_false,
                if_true, ite_false, ite_true]
              exact closeItemSync_zero_close reduced (containerDefaults cattrs) itj hz hcl

/-- Witness for C5, the claim's own scenario: Items A (open, no
group), B (open, group g), C (closed, group g) in an auto-close
container with duration 0; toggling C leaves C open, leaves B open and
untouched (same-group exception), and fully closes A. -/
theorem c5_witness :
    (∃ itC, docItem? (toggleAt false demoDoc 0 2) 0 2 = some itC
      ∧ itC.isOpenClass = true)
    ∧ (∃ itB, docItem? (toggleAt false demoDoc 0 2) 0 1 = some itB ∧ itB = demoB)
    ∧ (∃ itA, docItem? (toggleAt false demoDoc 0 2) 0 0 = some itA
      ∧ itA.isOpenClass = false ∧ itA.content.hidden = true) := by
  have hB := c5_auto_close_exception false demoContainerAttrs [demoA, demoB, demoC]
    2 1 demoC demoB rfl rfl (by decide) (by decide) (by decide) (by decide)
  have hA := c5_auto_close_exception false demoContainerAttrs [demoA, demoB, demoC]
    2 0 demoC demoA rfl rfl (by decide) (by decide) (by decide) (by decide)
  have hnoA : ¬∃ sg, truthyAttr demoA.attrs "data-link-group" = some sg
      ∧ getAttr demoC.attrs "data-link-group" = some sg := by
    rintro ⟨sg, h1, h2⟩
    have hA0 : truthyAttr demoA.attrs "data-link-group" = none := by decide
    rw [hA0] at h1
    exact Option.noConfusion h1
  refine ⟨?_, ?_, ?_⟩
  · obtain ⟨⟨itC, hgetC, hopenC, hariaC⟩, _⟩ := hB
    exact ⟨itC, hgetC, hopenC⟩
  · obtain ⟨_, itB, hgetB, hsame, _, _⟩ := hB
    exact ⟨itB, hgetB, hsame ⟨"g", by decide, by decide⟩⟩
  · obtain ⟨_, itA, hgetA, _, _, hzero⟩ := hA
    obtain ⟨hA1, hA2⟩ := hzero hnoA (by decide) (by decide)
    exact ⟨itA, hgetA, hA1, hA2⟩

/-! ## C10 -/

/-- C10: a single toggle leaves every item in a different container
whose raw `data-link-group` does not equal the toggled item's truthy
group (in particular every item when the toggled item has no truthy
group) completely unchanged: the open/close step touches only the
toggled position, the link-group synchronisation touches only items
whose raw group attribute equals the toggled item's truthy group, and
auto-close touches only the toggled container — so state changes
caused by auto-close or link-group propagation are never further
propagated to the affected items' own link groups. -/
theorem c10_link_group_containment (reduced : Bool) (doc : Doc) (ci ii cj ij : ℕ)
    (item itj : Item)
    (hi : docItem? doc ci ii = some item)
    (hj : docItem? doc cj ij = some itj)
    (hcj : cj ≠ ci)
    (hg : ∀ gid, truthyAttr item.attrs "data-link-group" = some gid →
        getAttr itj.attrs "data-link-group" ≠ some gid) :
    docItem? (toggleAt reduced doc ci ii) cj ij = some itj := by
  obtain ⟨c, hgc, hgi⟩ := (docItem?_eq_some doc ci ii item).1 hi
  obtain ⟨cc, hgcj, hgij⟩ := (docItem?_eq_some doc cj ij itj).1 hj
  simp only [toggleAt, hgc, hgi]
  have hne : ¬(cj = ci ∧ ij = ii) := fun h => hcj h.1
  obtain ⟨cc1, h1c, h1a, h1i⟩ := toggleOpenCloseAt_docItem? reduced
    (containerDefaults c.attrs) item.isOpenClass doc ci ii cj ij cc itj hgcj hgij
  rw [toggleItemFn, if_neg hne] at h1i
  cases htg : truthyAttr item.attrs "data-link-group" with
  | none =>
      by_cases hac : (!item.isOpenClass && dataBool c.attrs "auto-close" false) = true
      · simp only [htg, hac, if_true]
        obtain ⟨cc2, h2c, h2a, h2i⟩ := autoCloseSiblings_docItem? reduced
          (toggleOpenCloseAt reduced (containerDefaults c.attrs) item.isOpenClass doc ci ii)
          ci ii (getAttr item.attrs "data-link-group") cj ij cc1 itj h1c h1i
        rw [autoCloseItemFn, if_neg hcj] at h2i
        exact (docItem?_eq_some _ cj ij itj).2 ⟨cc2, h2c, h2i⟩
      · simp only [htg, hac, if_false]
        exact (docItem?_eq_some _ cj ij itj).2 ⟨cc1, h1c, h1i⟩
  | some gid =>
      obtain ⟨cc2, h2c, h2a, h2i⟩ := syncLinkedGroup_docItem? reduced
        (toggleOpenCloseAt reduced (containerDefaults c.attrs) item.isOpenClass doc ci ii)
        gid ci ii (!item.isOpenClass) cj ij cc1 itj h1c h1i
      rw [syncItemFn, if_neg hne, if_neg (hg gid htg)] at h2i
      by_cases hac : (!item.isOpenClass && dataBool c.attrs "auto-close" false) = true
      · simp only [htg, hac, if_true]
        obtain ⟨cc3, h3c, h3a, h3i⟩ := autoCloseSiblings_docItem? reduced
          (syncLinkedGroup reduced
            (toggleOpenCloseAt reduced (containerDefaults c.attrs) item.isOpenClass doc ci ii)
            gid ci ii (!item.isOpenClass))
          ci ii (getAttr item.attrs "data-link-group") cj ij cc2 itj h2c h2i
        rw [autoCloseItemFn, if_neg hcj] at h3i
        exact (docItem?_eq_some _ cj ij itj).2 ⟨cc3, h3c, h3i⟩
      · simp only [htg, hac, if_false]
        exact (docItem?_eq_some _ cj ij itj).2 ⟨cc2, h2c, h2i⟩

/-- Witness for C10: toggling a group-`g` item in the first container
leaves the open group-`h` item in the second container exactly
unchanged. -/
theorem c10_witness :
    docItem? (toggleAt false demoDoc2 0 0) 1 0
      = some { sampleItem [("data-link-group", "h")] with isOpenClass := true } := by
  refine c10_link_group_containment false demoDoc2 0 0 1 0
    (sampleItem [("data-link-group", "g")])
    { sampleItem [("data-link-group", "h")] with isOpenClass := true }
    rfl rfl (by decide) ?_
  intro gid hgid
  have hcalc : truthyAttr (sampleItem [("data-link-group", "g")]).attrs "data-link-group"
      = some "g" := by decide
  rw [hcalc] at hgid
  have hgg : gid = "g" := (Option.some.inj hgid).symm
  subst hgg
  decide

end AdvAccordion
